import Mathlib

/-!
Verification of the WebVerse launcher's state-tracking fragment.

The development shallowly embeds the Python modules `core/flags.py`,
`core/docker_ops.py`, `src/webverse/core/runtime.py` and the
`AppState` reconciler / flag-submission workflow of `gui/app_state.py`.
Python strings are modelled as lists of Unicode code points (`PyStr`),
machine words as `Nat` with explicit reduction mod 2^32, external
subprocess invocations as a pure oracle (`DockerEnv`), and Python
exceptions as `Except` values.
-/

set_option maxRecDepth 4000

namespace WebVerse

/-- Python `str` values, modelled as lists of Unicode code points. -/
abbrev PyStr := List Nat

/-- Embed a Lean string literal as a Python string (its code points). -/
def pyStr (s : String) : PyStr := s.data.map Char.toNat

/-- Code points for which Python's `str.isspace` is true (the set stripped
by `str.strip()` with no argument). -/
def pyIsSpace (n : Nat) : Bool :=
  decide (n ∈ [9, 10, 11, 12, 13, 28, 29, 30, 31, 32, 133, 160, 5760,
    8192, 8193, 8194, 8195, 8196, 8197, 8198, 8199, 8200, 8201, 8202,
    8232, 8233, 8239, 8287, 12288])

/-- Python `s.strip()`: remove leading and trailing whitespace. -/
def pyStrip (s : PyStr) : PyStr :=
  ((s.dropWhile pyIsSpace).reverse.dropWhile pyIsSpace).reverse

/-- Lowercase one code point in the ASCII range (Python `str.lower` restricted
to the ASCII letters, which is all the hex-digest strings here contain). -/
def lowerCp (n : Nat) : Nat := if 65 ≤ n ∧ n ≤ 90 then n + 32 else n

/-- Python `s.lower()` on the ASCII range. -/
def pyLower (s : PyStr) : PyStr := s.map lowerCp

/-- Python `a or b` on strings: the empty string is falsy. -/
def pyOr (a b : PyStr) : PyStr := if a = [] then b else a

/-- UTF-8 encoding of one code point (Python `str.encode("utf-8")`,
for non-surrogate scalar values). -/
def utf8EncodeCp (n : Nat) : List Nat :=
  if n < 128 then [n]
  else if n < 2048 then [192 ||| (n >>> 6), 128 ||| (n &&& 63)]
  else if n < 65536 then
    [224 ||| (n >>> 12), 128 ||| ((n >>> 6) &&& 63), 128 ||| (n &&& 63)]
  else
    [240 ||| (n >>> 18), 128 ||| ((n >>> 12) &&& 63),
     128 ||| ((n >>> 6) &&& 63), 128 ||| (n &&& 63)]

/-- UTF-8 encoding of a whole string, as a byte list. -/
def utf8Encode (s : PyStr) : List Nat := (s.map utf8EncodeCp).flatten

/-! ## SHA-256 (FIPS 180-4), over byte lists, executable by kernel reduction -/

/-- Truncate to a 32-bit word. -/
def u32 (n : Nat) : Nat := n % 4294967296

/-- Rotate a 32-bit word right by `n` bit positions. -/
def rotr (x n : Nat) : Nat := u32 ((x >>> n) ||| (x <<< (32 - n)))

def bsig0 (x : Nat) : Nat := (rotr x 2) ^^^ (rotr x 13) ^^^ (rotr x 22)

def bsig1 (x : Nat) : Nat := (rotr x 6) ^^^ (rotr x 11) ^^^ (rotr x 25)

def ssig0 (x : Nat) : Nat := (rotr x 7) ^^^ (rotr x 18) ^^^ (x >>> 3)

def ssig1 (x : Nat) : Nat := (rotr x 17) ^^^ (rotr x 19) ^^^ (x >>> 10)

def chf (x y z : Nat) : Nat := (x &&& y) ^^^ ((x ^^^ 4294967295) &&& z)

def majf (x y z : Nat) : Nat := (x &&& y) ^^^ (x &&& z) ^^^ (y &&& z)

/-- The 64 SHA-256 round constants. -/
def K256 : List Nat :=
  [1116352408, 1899447441, 3049323471, 3921009573, 961987163,
   1508970993, 2453635748, 2870763221, 3624381080, 310598401,
   607225278, 1426881987, 1925078388, 2162078206, 2614888103,
   3248222580, 3835390401, 4022224774, 264347078, 604807628,
   770255983, 1249150122, 1555081692, 1996064986, 2554220882,
   2821834349, 2952996808, 3210313671, 3336571891, 3584528711,
   113926993, 338241895, 666307205, 773529912, 1294757372,
   1396182291, 1695183700, 1986661051, 2177026350, 2456956037,
   2730485921, 2820302411, 3259730800, 3345764771, 3516065817,
   3600352804, 4094571909, 275423344, 430227734, 506948616,
   659060556, 883997877, 958139571, 1322822218, 1537002063,
   1747873779, 1955562222, 2024104815, 2227730452, 2361852424,
   2428436474, 2756734187, 3204031479, 3329325298]

/-- The eight working variables of the compression function. -/
structure Sha256State where
  a : Nat
  b : Nat
  c : Nat
  d : Nat
  e : Nat
  f : Nat
  g : Nat
  h : Nat
  deriving DecidableEq

/-- SHA-256 initial hash value. -/
def sha256Init : Sha256State :=
  ⟨1779033703, 3144134277, 1013904242, 2773480762,
   1359893119, 2600822924, 528734635, 1541459225⟩

/-- Big-endian bytes of `n`, `k` bytes wide. -/
def toBytesBE : Nat → Nat → List Nat
  | 0, _ => []
  | k + 1, n => ((n >>> (8 * k)) &&& 255) :: toBytesBE k n

/-- Group a byte list into big-endian 32-bit words (length a multiple of 4). -/
def bytesToWords : List Nat → List Nat
  | a :: b :: c :: d :: rest =>
      ((a <<< 24) ||| (b <<< 16) ||| (c <<< 8) ||| d) :: bytesToWords rest
  | _ => []

/-- Extend a 16-word block by `k` further schedule words. -/
def extendSchedule : Nat → List Nat → List Nat
  | 0, ws => ws
  | k + 1, ws =>
      let t := ws.length
      let w := u32 (ssig1 (ws.getD (t - 2) 0) + ws.getD (t - 7) 0 +
                    ssig0 (ws.getD (t - 15) 0) + ws.getD (t - 16) 0)
      extendSchedule k (ws ++ [w])

/-- One round of the compression function per (constant, schedule word) pair. -/
def compressWords : List (Nat × Nat) → Sha256State → Sha256State
  | [], s => s
  | (k, w) :: rest, s =>
      let t1 := u32 (s.h + bsig1 s.e + chf s.e s.f s.g + k + w)
      let t2 := u32 (bsig0 s.a + majf s.a s.b s.c)
      compressWords rest
        ⟨u32 (t1 + t2), s.a, s.b, s.c, u32 (s.d + t1), s.e, s.f, s.g⟩

/-- Compress one 16-word block into the running hash state. -/
def sha256Compress (hs : Sha256State) (block : List Nat) : Sha256State :=
  let fs := compressWords (K256.zip (extendSchedule 48 block)) hs
  ⟨u32 (hs.a + fs.a), u32 (hs.b + fs.b), u32 (hs.c + fs.c), u32 (hs.d + fs.d),
   u32 (hs.e + fs.e), u32 (hs.f + fs.f), u32 (hs.g + fs.g), u32 (hs.h + fs.h)⟩

/-- Process `fuel` 16-word blocks from the front of the word list. -/
def sha256Blocks : Nat → List Nat → Sha256State → Sha256State
  | 0, _, hs => hs
  | k + 1, ws, hs => sha256Blocks k (ws.drop 16) (sha256Compress hs (ws.take 16))

/-- SHA-256 padding: append `0x80`, zeros, and the 64-bit big-endian
bit length, reaching a multiple of 64 bytes. -/
def sha256Pad (msg : List Nat) : List Nat :=
  msg ++ [128] ++ List.replicate ((119 - msg.length % 64) % 64) 0 ++
    toBytesBE 8 (msg.length * 8)

/-- Lowercase hex digit for a nibble, as a code point. -/
def hexDigitCp (n : Nat) : Nat := if n < 10 then 48 + n else 87 + n

/-- The eight lowercase hex digits of a 32-bit word, as code points. -/
def wordHexCp (w : Nat) : PyStr :=
  [hexDigitCp ((w >>> 28) &&& 15), hexDigitCp ((w >>> 24) &&& 15),
   hexDigitCp ((w >>> 20) &&& 15), hexDigitCp ((w >>> 16) &&& 15),
   hexDigitCp ((w >>> 12) &&& 15), hexDigitCp ((w >>> 8) &&& 15),
   hexDigitCp ((w >>> 4) &&& 15), hexDigitCp (w &&& 15)]

/-- SHA-256 digest of a byte list, as lowercase hex code points. -/
def sha256BytesHex (msg : List Nat) : PyStr :=
  let ws := bytesToWords (sha256Pad msg)
  let hs := sha256Blocks (ws.length / 16) ws sha256Init
  ([hs.a, hs.b, hs.c, hs.d, hs.e, hs.f, hs.g, hs.h].map wordHexCp).flatten

/-- `core/flags.py::sha256_hex`: hex digest of the UTF-8 encoding of a
string (`hashlib.sha256(s.encode("utf-8")).hexdigest()`). -/
def sha256_hex (s : PyStr) : PyStr := sha256BytesHex (utf8Encode s)

/-- FIPS 180-4 test vector: SHA-256 of `"abc"`. -/
example :
    sha256_hex (pyStr "abc") =
      pyStr "ba7816bf8f01cfea414140de5dae2223b00361a396177a9cb410ff61f20015ad" := by
  decide

/-- SHA-256 of the empty message. -/
example :
    sha256_hex (pyStr "") =
      pyStr "e3b0c44298fc1c149afbf4c8996fb92427ae41e4649b934ca495991b7852b855" := by
  decide

/-! ## core/flags.py -/

/-- `core/flags.py::flag_matches_sha256`: trim the submission, trim and
lowercase the expected digest, fail on emptiness at either stage, then
compare the SHA-256 hex digest of the trimmed submission. -/
def flag_matches_sha256 (submitted_flag expected_sha256 : PyStr) : Bool :=
  if submitted_flag = [] ∨ expected_sha256 = [] then false
  else
    let submitted := pyStrip submitted_flag
    let exp := pyLower (pyStrip expected_sha256)
    if submitted = [] ∨ exp = [] then false
    else sha256_hex submitted == exp

/-! ## core/docker_ops.py -/

/-- The Python exceptions `subprocess.run` raises in this layer. -/
inductive PyExn where
  | timeoutExpired
  | fileNotFoundError
  | other (msg : PyStr)
  deriving DecidableEq

/-- Python `str(e)` for those exceptions. The exact rendered text of
`TimeoutExpired` / `FileNotFoundError` is abbreviated; no claim reads it. -/
def excStr : PyExn → PyStr
  | .timeoutExpired => pyStr "Command timed out"
  | .fileNotFoundError => pyStr "No such file or directory"
  | .other m => m

/-- Outcome of one external process invocation, chosen by the environment. -/
inductive RunResult where
  | completed (returncode : Int) (stdout stderr : PyStr)
  | timeout
  | binMissing
  | raised (msg : PyStr)
  deriving DecidableEq

/-- The external world behind `subprocess.run`: a pure oracle from
(argument vector, working directory, timeout) to an outcome. -/
structure DockerEnv where
  run : List PyStr → Option PyStr → Nat → RunResult

/-- A `subprocess.CompletedProcess` (the fields the callers read;
`args` is dropped). -/
structure Proc where
  returncode : Int
  stdout : PyStr
  stderr : PyStr
  deriving DecidableEq

/-- `docker_ops._run`: `subprocess.run(cmd, cwd=cwd, capture_output=True,
text=True, timeout=timeout)`. Raises (returns `.error`) on timeout,
missing binary, or any other exception the environment produces. -/
def docker_run (env : DockerEnv) (cmd : List PyStr) (cwd : Option PyStr)
    (timeout : Nat) : Except PyExn Proc :=
  match env.run cmd cwd timeout with
  | .completed rc out err => .ok ⟨rc, out, err⟩
  | .timeout => .error .timeoutExpired
  | .binMissing => .error .fileNotFoundError
  | .raised m => .error (.other m)

def dockerVersionFmtCmd : List PyStr :=
  [pyStr "docker", pyStr "version", pyStr "--format",
   pyStr "\x7b\x7b.Server.Version\x7d\x7d"]

def dockerVersionCmd : List PyStr := [pyStr "docker", pyStr "version"]

def composeVersionShortCmd : List PyStr :=
  [pyStr "docker", pyStr "compose", pyStr "version", pyStr "--short"]

def composeVersionCmd : List PyStr :=
  [pyStr "docker", pyStr "compose", pyStr "version"]

def composePsRunningCmd (compose_file : PyStr) : List PyStr :=
  [pyStr "docker", pyStr "compose", pyStr "-f", compose_file, pyStr "ps",
   pyStr "--status", pyStr "running", pyStr "-q"]

def composeUpCmd (compose_file : PyStr) : List PyStr :=
  [pyStr "docker", pyStr "compose", pyStr "-f", compose_file, pyStr "up",
   pyStr "-d", pyStr "--build"]

def composeDownCmd (compose_file : PyStr) : List PyStr :=
  [pyStr "docker", pyStr "compose", pyStr "-f", compose_file, pyStr "down",
   pyStr "-v"]

def composePsCmd (compose_file : PyStr) : List PyStr :=
  [pyStr "docker", pyStr "compose", pyStr "-f", compose_file, pyStr "ps"]

def composeLogsCmd (compose_file : PyStr) (tail : Nat) : List PyStr :=
  [pyStr "docker", pyStr "compose", pyStr "-f", compose_file, pyStr "logs",
   pyStr "--no-color", pyStr "--tail", pyStr (toString tail)]

def composeRestartCmd (compose_file : PyStr) : List PyStr :=
  [pyStr "docker", pyStr "compose", pyStr "-f", compose_file, pyStr "restart"]

/-- `docker_ops.docker_available`: probe the engine version; a
`FileNotFoundError` anywhere in the `try` body yields the distinct
"Docker CLI not found" detail, any other exception yields `str(e)`. -/
def docker_available (env : DockerEnv) : Bool × PyStr :=
  let body : Except PyExn (Bool × PyStr) := do
    let p ← docker_run env dockerVersionFmtCmd none 8
    if p.returncode = 0 ∧ pyStrip p.stdout ≠ [] then
      pure (true, pyStrip p.stdout)
    else do
      let p2 ← docker_run env dockerVersionCmd none 8
      if p2.returncode = 0 then pure (true, pyStr "Installed")
      else
        pure (false,
          pyStrip (pyOr p.stderr (pyOr p.stdout (pyStr "Docker not available"))))
  match body with
  | .ok r => r
  | .error .fileNotFoundError => (false, pyStr "Docker CLI not found")
  | .error e => (false, excStr e)

/-- First element of Python `str.splitlines()` of a nonempty string:
the prefix up to the first line-break code point. -/
def splitlinesHead (s : PyStr) : PyStr :=
  s.takeWhile (fun n => !([10, 11, 12, 13, 28, 29, 30, 133, 8232, 8233].contains n))

/-- `docker_ops.compose_v2_available`: probe the compose v2 plugin. -/
def compose_v2_available (env : DockerEnv) : Bool × PyStr :=
  let body : Except PyExn (Bool × PyStr) := do
    let p ← docker_run env composeVersionShortCmd none 8
    if p.returncode = 0 ∧ pyStrip p.stdout ≠ [] then
      pure (true, pyStrip p.stdout)
    else do
      let p2 ← docker_run env composeVersionCmd none 8
      if p2.returncode = 0 ∧ (pyStrip p2.stdout ≠ [] ∨ pyStrip p2.stderr ≠ []) then
        let out := pyStrip (pyOr p2.stdout (pyOr p2.stderr []))
        pure (true, if out ≠ [] then splitlinesHead out else pyStr "Installed")
      else
        pure (false,
          pyStrip (pyOr p.stderr (pyOr p.stdout (pyStr "docker compose not available"))))
  match body with
  | .ok r => r
  | .error .fileNotFoundError => (false, pyStr "Docker CLI not found")
  | .error e => (false, excStr e)

/-- `docker_ops.compose_has_running`: filtered `compose ps`; every
exception is caught and reported as `(False, str(e))`. -/
def compose_has_running (env : DockerEnv) (lab_path compose_file : PyStr) :
    Bool × PyStr :=
  let body : Except PyExn (Bool × PyStr) := do
    let p ← docker_run env (composePsRunningCmd compose_file) (some lab_path) 30
    if p.returncode ≠ 0 then
      pure (false, pyStrip (pyOr p.stderr (pyOr p.stdout (pyStr "compose ps failed"))))
    else
      pure (pyStrip p.stdout ≠ [], pyStrip p.stdout)
  match body with
  | .ok r => r
  | .error e => (false, excStr e)

/-- `docker_ops.compose_up`: a bare `_run`, with no exception handler. -/
def compose_up (env : DockerEnv) (lab_path compose_file : PyStr) :
    Except PyExn Proc :=
  docker_run env (composeUpCmd compose_file) (some lab_path) 600

/-- `docker_ops.compose_down`: a bare `_run`, with no exception handler. -/
def compose_down (env : DockerEnv) (lab_path compose_file : PyStr) :
    Except PyExn Proc :=
  docker_run env (composeDownCmd compose_file) (some lab_path) 600

/-- `docker_ops.compose_ps`: a bare `_run`, with no exception handler. -/
def compose_ps (env : DockerEnv) (lab_path compose_file : PyStr) :
    Except PyExn Proc :=
  docker_run env (composePsCmd compose_file) (some lab_path) 30

/-- `docker_ops.compose_logs`: a bare `_run`, with no exception handler. -/
def compose_logs (env : DockerEnv) (lab_path compose_file : PyStr) (tail : Nat) :
    Except PyExn Proc :=
  docker_run env (composeLogsCmd compose_file tail) (some lab_path) 30

/-- `docker_ops.compose_restart`: a bare `_run`, with no exception handler. -/
def compose_restart (env : DockerEnv) (lab_path compose_file : PyStr) :
    Except PyExn Proc :=
  docker_run env (composeRestartCmd compose_file) (some lab_path) 120

/-- Concatenate two output streams the way `compose_reset` does: if the
first is nonempty and does not end in a newline, insert one. -/
def joinNl (a b : PyStr) : PyStr :=
  (if a ≠ [] ∧ a.getLast? ≠ some 10 then a ++ [10] else a) ++ b

/-- `docker_ops.compose_reset`: `down -v` then unconditionally `up -d
--build`; outputs concatenated down-then-up, return code taken from `up`. -/
def compose_reset (env : DockerEnv) (lab_path compose_file : PyStr) :
    Except PyExn Proc := do
  let down ← docker_run env (composeDownCmd compose_file) (some lab_path) 600
  let up ← docker_run env (composeUpCmd compose_file) (some lab_path) 600
  pure ⟨up.returncode, joinNl down.stdout up.stdout, joinNl down.stderr up.stderr⟩

/-! ## src/webverse/core/runtime.py -/

/-- Values stored in `runtime.json` (only strings and null occur). -/
abbrev RtDict := List (PyStr × Option PyStr)

/-- The persisted `~/.webverse/runtime.json`. `corrupt` stands for any file
text `json.loads` rejects. A file whose JSON parses to a non-object is not
modelled (no claim concerns it). -/
inductive RuntimeFile where
  | missing
  | corrupt
  | parsed (data : RtDict)
  deriving DecidableEq

def rtKey : PyStr := pyStr "running_lab_id"

/-- Python `dict` assignment on the association-list model of a JSON
object (keys unique, so updating the first match is assignment). -/
def dictSet : RtDict → PyStr → Option PyStr → RtDict
  | [], k, v => [(k, v)]
  | (k1, v1) :: rest, k, v =>
      if k1 = k then (k, v) :: rest else (k1, v1) :: dictSet rest k v

/-- Python `dict.get` (no default), on the association-list model. -/
def dictGet : RtDict → PyStr → Option (Option PyStr)
  | [], _ => none
  | (k1, v1) :: rest, k => if k1 = k then some v1 else dictGet rest k

/-- `runtime.get_runtime`: a missing file and an unparseable file both read
as `{"running_lab_id": None}`; otherwise the parsed object. -/
def get_runtime : RuntimeFile → RtDict
  | .missing => [(rtKey, none)]
  | .corrupt => [(rtKey, none)]
  | .parsed d => d

/-- `runtime.set_running_lab`: read-modify-write of the whole record. -/
def set_running_lab (f : RuntimeFile) (lab_id : Option PyStr) : RuntimeFile :=
  .parsed (dictSet (get_runtime f) rtKey lab_id)

/-- `runtime.get_running_lab` (`dict.get` yields None for a missing key). -/
def get_running_lab (f : RuntimeFile) : Option PyStr :=
  match dictGet (get_runtime f) rtKey with
  | some v => v
  | none => none

/-! ## Progress store

`gui/app_state.py` imports `core.progress_db`, which is not in the source
tree; its three mutators are modelled from spec §4.4. -/

/-- One per-lab progress row. -/
structure ProgressRec where
  started_at : Option Nat
  solved_at : Option Nat
  attempts : Nat
  deriving DecidableEq

/-- The zero row an absent lab id reads as. -/
def emptyProgress : ProgressRec := ⟨none, none, 0⟩

abbrev ProgressDb := List (PyStr × ProgressRec)

def progressGet (db : ProgressDb) (lab_id : PyStr) : ProgressRec :=
  match db.find? (fun r => r.1 == lab_id) with
  | some r => r.2
  | none => emptyProgress

def progressSet : ProgressDb → PyStr → ProgressRec → ProgressDb
  | [], k, v => [(k, v)]
  | (k1, v1) :: rest, k, v =>
      if k1 = k then (k, v) :: rest else (k1, v1) :: progressSet rest k v

/-- Modelled from the spec: `progress_db.mark_started` — "sets `started_at`
to now, only if currently unset. Idempotent." -/
def db_mark_started (db : ProgressDb) (lab_id : PyStr) (now : Nat) : ProgressDb :=
  let r := progressGet db lab_id
  match r.started_at with
  | some _ => db
  | none => progressSet db lab_id ⟨some now, r.solved_at, r.attempts⟩

/-- Modelled from the spec: `progress_db.mark_attempt` — "increments
`attempts` by 1 unconditionally." -/
def db_mark_attempt (db : ProgressDb) (lab_id : PyStr) : ProgressDb :=
  let r := progressGet db lab_id
  progressSet db lab_id ⟨r.started_at, r.solved_at, r.attempts + 1⟩

/-- Modelled from the spec: `progress_db.mark_solved` — "sets `solved_at`
to now, only if currently unset. Idempotent; first solve is permanent." -/
def db_mark_solved (db : ProgressDb) (lab_id : PyStr) (now : Nat) : ProgressDb :=
  let r := progressGet db lab_id
  match r.solved_at with
  | some _ => db
  | none => progressSet db lab_id ⟨r.started_at, some now, r.attempts⟩

/-! ## gui/app_state.py -/

/-- `core/models.py::Lab` (the fields the embedded operations read;
the `entrypoint` mapping is never touched by them). -/
structure Lab where
  id : PyStr
  name : PyStr
  description : PyStr
  difficulty : PyStr
  path : PyStr
  compose_file : PyStr
  flag_sha256 : PyStr
  deriving DecidableEq

/-- Qt signal emissions from `AppState`. `runningChanged` carries the lab
argument passed to `emit`; the other payloads are not read by any claim. -/
inductive Event where
  | runningChanged (lab : Option PyStr)
  | progressChanged
  | labsChanged
  | selectedChanged
  deriving DecidableEq

/-- The `AppState` fields involved in flag submission and reconciliation.
The two read caches are represented by their dirty flags. -/
structure AppState where
  labs : List Lab
  selected : Option Lab
  runningLabId : Option PyStr
  store : RuntimeFile
  progress : ProgressDb
  progressDirty : Bool
  summaryDirty : Bool
  deriving DecidableEq

/-- `AppState._invalidate_all_progress_views`. -/
def invalidateAllProgressViews (s : AppState) : AppState × List Event :=
  ({s with progressDirty := true, summaryDirty := true}, [.progressChanged])

/-- `AppState.mark_started` (wall-clock passed explicitly as `now`). -/
def stMarkStarted (s : AppState) (lab_id : PyStr) (now : Nat) :
    AppState × List Event :=
  invalidateAllProgressViews {s with progress := db_mark_started s.progress lab_id now}

/-- `AppState.mark_attempt`. -/
def stMarkAttempt (s : AppState) (lab_id : PyStr) : AppState × List Event :=
  invalidateAllProgressViews {s with progress := db_mark_attempt s.progress lab_id}

/-- `AppState.mark_solved` (wall-clock passed explicitly as `now`). -/
def stMarkSolved (s : AppState) (lab_id : PyStr) (now : Nat) :
    AppState × List Event :=
  invalidateAllProgressViews {s with progress := db_mark_solved s.progress lab_id now}

/-- `AppState.submit_flag`. `now` is the wall-clock instant the progress
store would record. The `Lab` dataclass always defines `flag_sha256`, so the
`getattr` fallback chain reduces to that field. -/
def submit_flag (s : AppState) (now : Nat) (lab_id flag : PyStr) :
    AppState × List Event × Bool × PyStr :=
  let submitted := pyStrip flag
  if submitted = [] then
    let (s1, ev1) := stMarkAttempt s lab_id
    (s1, ev1, false, pyStr "Empty flag.")
  else
    let (s1, ev1) := stMarkStarted s lab_id now
    let (s2, ev2) := stMarkAttempt s1 lab_id
    match s2.labs.find? (fun x => x.id == lab_id) with
    | none => (s2, ev1 ++ ev2, false, pyStr "Lab not found.")
    | some lab =>
      let expected_sha := pyLower (pyStrip lab.flag_sha256)
      if expected_sha = [] then
        (s2, ev1 ++ ev2, false, pyStr "This lab has no flag_sha256 configured.")
      else
        let got_sha := sha256_hex submitted
        if got_sha = expected_sha then
          let (s3, ev3) := stMarkSolved s2 lab_id now
          let ev4 : List Event :=
            match s3.selected with
            | some sel =>
                if sel.id = lab_id then [.labsChanged, .selectedChanged]
                else [.labsChanged]
            | none => [.labsChanged]
          (s3, ev1 ++ ev2 ++ ev3 ++ ev4, true, [])
        else (s2, ev1 ++ ev2, false, [])

/-- `AppState._verify_runtime_running_lab`: the startup reconciliation
pass, returning the updated state and the emitted signals. The opening
guard `if not self._running_lab_id` is a Python falsiness test, so both
`None` and the empty string make the pass return without touching state. -/
def verifyRuntimeRunningLab (env : DockerEnv) (s : AppState) :
    AppState × List Event :=
  match s.runningLabId with
  | none => (s, [])
  | some rid =>
    if rid = [] then (s, [])
    else if (docker_available env).1 ∧ (compose_v2_available env).1 then
      match s.labs.find? (fun x => x.id == rid) with
      | none =>
          ({s with runningLabId := none, store := set_running_lab s.store none},
           [.runningChanged none])
      | some lab =>
          if (compose_has_running env lab.path lab.compose_file).1 then (s, [])
          else
            ({s with runningLabId := none, store := set_running_lab s.store none},
             [.runningChanged none])
    else (s, [])

/-! ## Supporting lemmas -/

theorem dropWhile_self {α : Type} (p : α → Bool) (l : List α) :
    (l.dropWhile p).dropWhile p = l.dropWhile p := by
  induction l with
  | nil => simp
  | cons a t ih =>
      by_cases h : p a = true <;> simp [List.dropWhile_cons, h, ih]

theorem dropWhile_append_last {α : Type} (p : α → Bool) (l : List α) (a : α)
    (h : p a = false) :
    (l ++ [a]).dropWhile p = l.dropWhile p ++ [a] := by
  induction l with
  | nil => simp [List.dropWhile_cons, h]
  | cons b t ih =>
      by_cases hb : p b = true <;> simp [List.dropWhile_cons, hb, ih]

theorem dropWhile_head_false {α : Type} (p : α → Bool) (l : List α) (a : α)
    (t : List α) (h : l.dropWhile p = a :: t) : p a = false := by
  induction l with
  | nil => simp at h
  | cons b r ih =>
      by_cases hb : p b = true
      · exact ih (by simpa [List.dropWhile_cons, hb] using h)
      · simp [List.dropWhile_cons, hb] at h
        simp [← h.1, Bool.eq_false_iff, hb]

theorem pyStrip_dropWhile (s : PyStr) :
    (pyStrip s).dropWhile pyIsSpace = pyStrip s := by
  unfold pyStrip
  cases h : s.dropWhile pyIsSpace with
  | nil => simp
  | cons a t =>
      have ha := dropWhile_head_false pyIsSpace s a t h
      have hrev : (a :: t).reverse = t.reverse ++ [a] := by simp
      rw [hrev, dropWhile_append_last pyIsSpace t.reverse a ha]
      simp [List.dropWhile_cons, ha]

theorem pyStrip_idem (s : PyStr) : pyStrip (pyStrip s) = pyStrip s := by
  show ((((pyStrip s).dropWhile pyIsSpace).reverse).dropWhile pyIsSpace).reverse
    = pyStrip s
  rw [pyStrip_dropWhile s]
  show (((((s.dropWhile pyIsSpace).reverse.dropWhile pyIsSpace).reverse.reverse)
    |>.dropWhile pyIsSpace).reverse) = pyStrip s
  rw [List.reverse_reverse, dropWhile_self]
  rfl

theorem dropWhile_map_inv (f : Nat → Nat) (p : Nat → Bool)
    (hp : ∀ n, p (f n) = p n) (l : PyStr) :
    (l.map f).dropWhile p = (l.dropWhile p).map f := by
  induction l with
  | nil => simp
  | cons a t ih =>
      by_cases h : p a = true <;>
        simp [List.dropWhile_cons, hp, h, ih]

theorem pyIsSpace_false_mid (n : Nat) (h1 : 33 ≤ n) (h2 : n ≤ 132) :
    pyIsSpace n = false := by
  simp only [pyIsSpace, decide_eq_false_iff_not, List.mem_cons,
    List.not_mem_nil, or_false]
  omega

theorem lowerCp_isSpace (n : Nat) : pyIsSpace (lowerCp n) = pyIsSpace n := by
  unfold lowerCp
  by_cases h : 65 ≤ n ∧ n ≤ 90
  · rw [if_pos h, pyIsSpace_false_mid (n + 32) (by omega) (by omega),
      pyIsSpace_false_mid n (by omega) (by omega)]
  · rw [if_neg h]

theorem lowerCp_idem (n : Nat) : lowerCp (lowerCp n) = lowerCp n := by
  unfold lowerCp
  by_cases h : 65 ≤ n ∧ n ≤ 90
  · rw [if_pos h, if_neg (by omega)]
  · rw [if_neg h, if_neg h]

theorem pyLower_idem (s : PyStr) : pyLower (pyLower s) = pyLower s := by
  simp only [pyLower, List.map_map]
  exact List.map_congr_left (fun a _ => lowerCp_idem a)

theorem pyLower_eq_nil (s : PyStr) : pyLower s = [] ↔ s = [] := by
  simp [pyLower]

theorem pyStrip_pyLower (s : PyStr) :
    pyStrip (pyLower s) = pyLower (pyStrip s) := by
  unfold pyStrip pyLower
  rw [dropWhile_map_inv lowerCp pyIsSpace lowerCp_isSpace s, ← List.map_reverse,
    dropWhile_map_inv lowerCp pyIsSpace lowerCp_isSpace, ← List.map_reverse]

theorem bool_eq_of_true_iff (a b : Bool) (h : a = true ↔ b = true) : a = b := by
  cases a <;> cases b <;> simp_all

/-- Characterization of `flag_matches_sha256`, shared by the flag claims. -/
theorem flag_matches_iff (sub exp : PyStr) :
    flag_matches_sha256 sub exp = true ↔
      (pyStrip sub ≠ [] ∧ pyStrip exp ≠ [] ∧
        sha256_hex (pyStrip sub) = pyLower (pyStrip exp)) := by
  unfold flag_matches_sha256
  by_cases h1 : sub = [] ∨ exp = []
  · rw [if_pos h1]
    rcases h1 with h | h <;> subst h <;> simp [pyStrip]
  · rw [if_neg h1]
    by_cases h2 : pyStrip sub = [] ∨ pyLower (pyStrip exp) = []
    · rw [if_pos h2]
      rcases h2 with h | h
      · simp [h]
      · simp [(pyLower_eq_nil (pyStrip exp)).mp h]
    · rw [if_neg h2]
      push_neg at h2
      have hexp : pyStrip exp ≠ [] :=
        fun hs => h2.2 ((pyLower_eq_nil (pyStrip exp)).mpr hs)
      simp [beq_iff_eq, h2.1, hexp]

theorem dictGet_dictSet_self (d : RtDict) (k : PyStr) (v : Option PyStr) :
    dictGet (dictSet d k v) k = some v := by
  induction d with
  | nil => simp [dictSet, dictGet]
  | cons kv rest ih =>
      by_cases h : kv.1 = k <;> simp [dictSet, dictGet, h, ih]

theorem get_running_lab_set (f : RuntimeFile) (v : Option PyStr) :
    get_running_lab (set_running_lab f v) = v := by
  simp [get_running_lab, set_running_lab, get_runtime, dictGet_dictSet_self]

theorem progressGet_progressSet_self (db : ProgressDb) (k : PyStr)
    (v : ProgressRec) : progressGet (progressSet db k v) k = v := by
  induction db with
  | nil => simp [progressSet, progressGet, List.find?]
  | cons kv rest ih =>
      by_cases h : kv.1 = k
      · simp [progressSet, progressGet, List.find?, h, beq_iff_eq]
      · have hb : (kv.1 == k) = false := by simpa [beq_iff_eq] using h
        simp only [progressSet, if_neg h]
        simpa [progressGet, List.find?, hb] using ih

theorem mark_attempt_get (db : ProgressDb) (id : PyStr) :
    progressGet (db_mark_attempt db id) id =
      ⟨(progressGet db id).started_at, (progressGet db id).solved_at,
       (progressGet db id).attempts + 1⟩ := by
  simp [db_mark_attempt, progressGet_progressSet_self]

theorem mark_started_get (db : ProgressDb) (id : PyStr) (now : Nat) :
    progressGet (db_mark_started db id now) id =
      ⟨some ((progressGet db id).started_at.getD now),
       (progressGet db id).solved_at, (progressGet db id).attempts⟩ := by
  unfold db_mark_started
  cases h : (progressGet db id).started_at with
  | none => simp [h, progressGet_progressSet_self]
  | some t =>
      simp only [h, Option.getD_some]
      rw [← h]

theorem mark_solved_get (db : ProgressDb) (id : PyStr) (now : Nat) :
    progressGet (db_mark_solved db id now) id =
      ⟨(progressGet db id).started_at,
       some ((progressGet db id).solved_at.getD now),
       (progressGet db id).attempts⟩ := by
  unfold db_mark_solved
  cases h : (progressGet db id).solved_at with
  | none => simp [h, progressGet_progressSet_self]
  | some t =>
      simp only [h, Option.getD_some]
      rw [← h]

theorem except_bind_ok {α β γ : Type} (a : α) (f : α → Except γ β) :
    ((Except.ok a : Except γ α) >>= f) = f a := rfl

theorem except_pure_eq_ok {α γ : Type} (a : α) :
    (pure a : Except γ α) = Except.ok a := rfl

/-! ## Concrete fixtures for witnesses and scenarios -/

/-- An environment in which every external command times out. -/
def envAlwaysTimeout : DockerEnv := ⟨fun _ _ _ => .timeout⟩

/-- An environment in which the `docker` binary is missing. -/
def envAlwaysMissing : DockerEnv := ⟨fun _ _ _ => .binMissing⟩

/-- An environment in which every command completes with exit code 1. -/
def envDockerDead : DockerEnv :=
  ⟨fun _ _ _ => .completed 1 [] (pyStr "Cannot connect to the Docker daemon")⟩

/-- An environment where engine and compose probes succeed but the filtered
`compose ps` reports no running containers. -/
def envUpNoContainers : DockerEnv :=
  ⟨fun cmd _ _ =>
    if cmd = composePsRunningCmd (pyStr "docker-compose.yml") then
      .completed 0 [] []
    else .completed 0 (pyStr "24.0.7") []⟩

/-- An environment where `down` exits 1 with output and `up` exits 0. -/
def envResetScenario : DockerEnv :=
  ⟨fun cmd _ _ =>
    if cmd = composeDownCmd (pyStr "docker-compose.yml") then
      .completed 1 (pyStr "down says nothing to remove") (pyStr "down error\n")
    else if cmd = composeUpCmd (pyStr "docker-compose.yml") then
      .completed 0 (pyStr "up says started") []
    else .completed 0 [] []⟩

def labW : Lab :=
  ⟨pyStr "sqli-101", pyStr "SQLi 101", pyStr "demo", pyStr "easy",
   pyStr "/labs/sqli-101", pyStr "docker-compose.yml", []⟩

/-- State whose persisted and in-memory claim is `sqli-101`. -/
def stateClaimW : AppState :=
  ⟨[labW], none, some (pyStr "sqli-101"),
   .parsed [(rtKey, some (pyStr "sqli-101"))], [], false, false⟩

/-- State whose claimed lab id matches no discovered lab. -/
def stateGhost : AppState :=
  ⟨[labW], none, some (pyStr "ghost"),
   .parsed [(rtKey, some (pyStr "ghost"))], [], false, false⟩

/-- State whose persisted claim is the empty string — falsy in Python, so
the reconciliation guard returns before touching it. -/
def stateEmptyClaim : AppState :=
  ⟨[labW], none, some [], .parsed [(rtKey, some [])], [], false, false⟩

/-- A lab with no configured flag hash. -/
def labNoHash : Lab :=
  ⟨pyStr "nohash", pyStr "No Hash", pyStr "demo", pyStr "easy",
   pyStr "/labs/nohash", pyStr "docker-compose.yml", []⟩

def stateNoHash : AppState := ⟨[labNoHash], none, none, .missing, [], false, false⟩

def flagAbc : PyStr := pyStr "WEBVERSE\x7babc\x7d"

/-- The scenario lab whose flag hash is SHA-256 of `WEBVERSE{abc}`. -/
def labSqli : Lab :=
  ⟨pyStr "sqli-101", pyStr "SQLi 101", pyStr "demo", pyStr "easy",
   pyStr "/labs/sqli-101", pyStr "docker-compose.yml", sha256_hex flagAbc⟩

def stateSqli : AppState := ⟨[labSqli], none, none, .missing, [], false, false⟩

/-- First scenario step: submit the correct flag with surrounding spaces. -/
def sqliStep1 : AppState × List Event × Bool × PyStr :=
  submit_flag stateSqli 7 (pyStr "sqli-101") (pyStr "  WEBVERSE\x7babc\x7d  ")

/-- Second scenario step: submit a wrong flag afterwards. -/
def sqliStep2 : AppState × List Event × Bool × PyStr :=
  submit_flag sqliStep1.1 8 (pyStr "sqli-101") (pyStr "WEBVERSE\x7bwrong\x7d")

/-! ## Claims -/

/-- Claim C2: the flag verifier returns true exactly when the SHA-256 hex digest of
the UTF-8 encoding of the trimmed submission equals the trimmed, lowercased
expected hash, and returns false whenever the trimmed submission or the
trimmed expected hash is empty (it is a total function, so it never raises). -/
theorem flag_matches_sha256_spec (sub exp : PyStr) :
    (flag_matches_sha256 sub exp = true ↔
      (pyStrip sub ≠ [] ∧ pyStrip exp ≠ [] ∧
        sha256_hex (pyStrip sub) = pyLower (pyStrip exp))) ∧
    (pyStrip sub = [] ∨ pyStrip exp = [] →
      flag_matches_sha256 sub exp = false) := by
  refine ⟨flag_matches_iff sub exp, fun h => ?_⟩
  cases hb : flag_matches_sha256 sub exp
  · rfl
  · exfalso
    rcases (flag_matches_iff sub exp).mp hb with ⟨h1, h2, _⟩
    rcases h with h | h
    · exact h1 h
    · exact h2 h

theorem flag_matches_sha256_spec_witness :
    (pyStrip (pyStr "   ") = [] ∨ pyStrip (pyStr "h") = []) ∧
    flag_matches_sha256 (pyStr "   ") (pyStr "h") = false :=
  ⟨Or.inl (by decide),
   (flag_matches_sha256_spec (pyStr "   ") (pyStr "h")).2 (Or.inl (by decide))⟩

/-- Claim C7: matching is insensitive to surrounding whitespace in a non-empty
submission and to letter case in the expected hash, but sensitive to the
case of the submission content (witnessed on the concrete pair "a" / "A"). -/
theorem flag_matches_trim_and_case :
    (∀ S H : PyStr, S ≠ [] →
      flag_matches_sha256 S H = flag_matches_sha256 (pyStrip S) H) ∧
    (∀ S H : PyStr,
      flag_matches_sha256 S H = flag_matches_sha256 S (pyLower H)) ∧
    (flag_matches_sha256 (pyStr "a") (sha256_hex (pyStr "a")) = true ∧
     flag_matches_sha256 (pyStr "A") (sha256_hex (pyStr "a")) = false) := by
  refine ⟨fun S H _ => ?_, fun S H => ?_, by decide, by decide⟩
  · apply bool_eq_of_true_iff
    rw [flag_matches_iff, flag_matches_iff, pyStrip_idem]
  · apply bool_eq_of_true_iff
    rw [flag_matches_iff, flag_matches_iff, pyStrip_pyLower, pyLower_idem]
    have hnil := pyLower_eq_nil (pyStrip H)
    constructor
    · rintro ⟨h1, h2, h3⟩
      exact ⟨h1, fun hs => h2 (hnil.mp hs), h3⟩
    · rintro ⟨h1, h2, h3⟩
      exact ⟨h1, fun hs => h2 (hnil.mpr hs), h3⟩

theorem flag_matches_trim_and_case_witness :
    flag_matches_sha256 (pyStr " flag ") (pyStr "h") =
      flag_matches_sha256 (pyStrip (pyStr " flag ")) (pyStr "h") :=
  flag_matches_trim_and_case.1 (pyStr " flag ") (pyStr "h") (by decide)

/-- Claim C3: `compose_reset` runs `down` then unconditionally `up` (on completed
processes), returns the newline-joined outputs down-first, and takes its
exit code from the `up` step alone; concretely, with `down` exiting 1 and
`up` exiting 0 the overall result succeeds with both outputs in order. -/
theorem compose_reset_combines_and_up_wins :
    (∀ (env : DockerEnv) (path cf : PyStr) (rc1 rc2 : Int) (o1 e1 o2 e2 : PyStr),
      env.run (composeDownCmd cf) (some path) 600 = .completed rc1 o1 e1 →
      env.run (composeUpCmd cf) (some path) 600 = .completed rc2 o2 e2 →
      compose_reset env path cf = .ok ⟨rc2, joinNl o1 o2, joinNl e1 e2⟩) ∧
    (compose_reset envResetScenario (pyStr "/labs/x") (pyStr "docker-compose.yml") =
      .ok ⟨0, pyStr "down says nothing to remove\nup says started",
           pyStr "down error\n"⟩) := by
  constructor
  · intro env path cf rc1 rc2 o1 e1 o2 e2 hdown hup
    simp only [compose_reset, docker_run, hdown, hup]
    rfl
  · rfl

theorem compose_reset_combines_witness :
    compose_reset envResetScenario (pyStr "/labs/x") (pyStr "docker-compose.yml") =
      .ok ⟨0, joinNl (pyStr "down says nothing to remove") (pyStr "up says started"),
           joinNl (pyStr "down error\n") []⟩ :=
  compose_reset_combines_and_up_wins.1 envResetScenario (pyStr "/labs/x")
    (pyStr "docker-compose.yml") 1 0 (pyStr "down says nothing to remove")
    (pyStr "down error\n") (pyStr "up says started") [] (by decide) (by decide)

/-- Claim C4, counterexample: the claim says a timeout propagates as a failed
result, never an exception, for every operation including `up`; but
`compose_up` is a bare `_run` with no handler, so a timeout surfaces as a
raised `subprocess.TimeoutExpired` (an `Except.error` here), not a result. -/
theorem compose_up_timeout_is_exception :
    compose_up envAlwaysTimeout (pyStr "/labs/x") (pyStr "docker-compose.yml") =
      .error .timeoutExpired := rfl

/-- Claim C4, amended: both availability probes and `compose_has_running`
never raise — missing binary, timeout and non-zero exit are each encoded in
their `(ok, detail)` result — and the bare compose operations (`up`, `down`,
`restart`, `logs`, `ps`) return the `(exit_code, stdout, stderr)` shape for
any completed process including a non-zero exit, but for them a timeout or
missing binary propagates as a raised exception, not a result. -/
theorem docker_ops_error_encoding :
    (∀ env : DockerEnv, env.run dockerVersionFmtCmd none 8 = .binMissing →
      docker_available env = (false, pyStr "Docker CLI not found")) ∧
    (∀ env : DockerEnv, env.run dockerVersionFmtCmd none 8 = .timeout →
      docker_available env = (false, excStr .timeoutExpired)) ∧
    (∀ (env : DockerEnv) (rc1 rc2 : Int) (o1 e1 o2 e2 : PyStr),
      env.run dockerVersionFmtCmd none 8 = .completed rc1 o1 e1 →
      env.run dockerVersionCmd none 8 = .completed rc2 o2 e2 →
      rc1 ≠ 0 → rc2 ≠ 0 →
      docker_available env =
        (false, pyStrip (pyOr e1 (pyOr o1 (pyStr "Docker not available"))))) ∧
    (∀ env : DockerEnv, env.run composeVersionShortCmd none 8 = .binMissing →
      compose_v2_available env = (false, pyStr "Docker CLI not found")) ∧
    (∀ env : DockerEnv, env.run composeVersionShortCmd none 8 = .timeout →
      compose_v2_available env = (false, excStr .timeoutExpired)) ∧
    (∀ (env : DockerEnv) (rc1 rc2 : Int) (o1 e1 o2 e2 : PyStr),
      env.run composeVersionShortCmd none 8 = .completed rc1 o1 e1 →
      env.run composeVersionCmd none 8 = .completed rc2 o2 e2 →
      rc1 ≠ 0 → rc2 ≠ 0 →
      compose_v2_available env =
        (false, pyStrip (pyOr e1 (pyOr o1 (pyStr "docker compose not available"))))) ∧
    (∀ (env : DockerEnv) (path cf : PyStr),
      env.run (composePsRunningCmd cf) (some path) 30 = .timeout →
      compose_has_running env path cf = (false, excStr .timeoutExpired)) ∧
    (∀ (env : DockerEnv) (path cf : PyStr),
      env.run (composePsRunningCmd cf) (some path) 30 = .binMissing →
      compose_has_running env path cf = (false, excStr .fileNotFoundError)) ∧
    (∀ (env : DockerEnv) (path cf : PyStr) (rc : Int) (o e : PyStr),
      env.run (composePsRunningCmd cf) (some path) 30 = .completed rc o e →
      rc ≠ 0 →
      compose_has_running env path cf =
        (false, pyStrip (pyOr e (pyOr o (pyStr "compose ps failed"))))) ∧
    (∀ (env : DockerEnv) (path cf : PyStr) (rc : Int) (o e : PyStr),
      env.run (composeUpCmd cf) (some path) 600 = .completed rc o e →
      compose_up env path cf = .ok ⟨rc, o, e⟩) ∧
    (∀ (env : DockerEnv) (path cf : PyStr),
      env.run (composeUpCmd cf) (some path) 600 = .timeout →
      compose_up env path cf = .error .timeoutExpired) ∧
    (∀ (env : DockerEnv) (path cf : PyStr),
      env.run (composeUpCmd cf) (some path) 600 = .binMissing →
      compose_up env path cf = .error .fileNotFoundError) ∧
    (∀ (env : DockerEnv) (path cf : PyStr) (rc : Int) (o e : PyStr),
      env.run (composeDownCmd cf) (some path) 600 = .completed rc o e →
      compose_down env path cf = .ok ⟨rc, o, e⟩) ∧
    (∀ (env : DockerEnv) (path cf : PyStr),
      env.run (composeDownCmd cf) (some path) 600 = .timeout →
      compose_down env path cf = .error .timeoutExpired) ∧
    (∀ (env : DockerEnv) (path cf : PyStr),
      env.run (composeDownCmd cf) (some path) 600 = .binMissing →
      compose_down env path cf = .error .fileNotFoundError) ∧
    (∀ (env : DockerEnv) (path cf : PyStr) (rc : Int) (o e : PyStr),
      env.run (composeRestartCmd cf) (some path) 120 = .completed rc o e →
      compose_restart env path cf = .ok ⟨rc, o, e⟩) ∧
    (∀ (env : DockerEnv) (path cf : PyStr),
      env.run (composeRestartCmd cf) (some path) 120 = .timeout →
      compose_restart env path cf = .error .timeoutExpired) ∧
    (∀ (env : DockerEnv) (path cf : PyStr),
      env.run (composeRestartCmd cf) (some path) 120 = .binMissing →
      compose_restart env path cf = .error .fileNotFoundError) ∧
    (∀ (env : DockerEnv) (path cf : PyStr) (tail : Nat) (rc : Int) (o e : PyStr),
      env.run (composeLogsCmd cf tail) (some path) 30 = .completed rc o e →
      compose_logs env path cf tail = .ok ⟨rc, o, e⟩) ∧
    (∀ (env : DockerEnv) (path cf : PyStr) (tail : Nat),
      env.run (composeLogsCmd cf tail) (some path) 30 = .timeout →
      compose_logs env path cf tail = .error .timeoutExpired) ∧
    (∀ (env : DockerEnv) (path cf : PyStr) (tail : Nat),
      env.run (composeLogsCmd cf tail) (some path) 30 = .binMissing →
      compose_logs env path cf tail = .error .fileNotFoundError) ∧
    (∀ (env : DockerEnv) (path cf : PyStr) (rc : Int) (o e : PyStr),
      env.run (composePsCmd cf) (some path) 30 = .completed rc o e →
      compose_ps env path cf = .ok ⟨rc, o, e⟩) ∧
    (∀ (env : DockerEnv) (path cf : PyStr),
      env.run (composePsCmd cf) (some path) 30 = .timeout →
      compose_ps env path cf = .error .timeoutExpired) ∧
    (∀ (env : DockerEnv) (path cf : PyStr),
      env.run (composePsCmd cf) (some path) 30 = .binMissing →
      compose_ps env path cf = .error .fileNotFoundError) := by
  refine ⟨fun env h => ?_, fun env h => ?_,
    fun env rc1 rc2 o1 e1 o2 e2 h1 h2 hrc1 hrc2 => ?_,
    fun env h => ?_, fun env h => ?_,
    fun env rc1 rc2 o1 e1 o2 e2 h1 h2 hrc1 hrc2 => ?_,
    fun env path cf h => ?_, fun env path cf h => ?_,
    fun env path cf rc o e h hrc => ?_,
    fun env path cf rc o e h => ?_, fun env path cf h => ?_,
    fun env path cf h => ?_,
    fun env path cf rc o e h => ?_, fun env path cf h => ?_,
    fun env path cf h => ?_,
    fun env path cf rc o e h => ?_, fun env path cf h => ?_,
    fun env path cf h => ?_,
    fun env path cf tail rc o e h => ?_, fun env path cf tail h => ?_,
    fun env path cf tail h => ?_,
    fun env path cf rc o e h => ?_, fun env path cf h => ?_,
    fun env path cf h => ?_⟩
  · simp only [docker_available, docker_run, h]
    rfl
  · simp only [docker_available, docker_run, h]
    rfl
  · simp [docker_available, docker_run, h1, h2, except_bind_ok,
      except_pure_eq_ok, hrc1, hrc2]
  · simp only [compose_v2_available, docker_run, h]
    rfl
  · simp only [compose_v2_available, docker_run, h]
    rfl
  · simp [compose_v2_available, docker_run, h1, h2, except_bind_ok,
      except_pure_eq_ok, hrc1, hrc2]
  · simp only [compose_has_running, docker_run, h]
    rfl
  · simp only [compose_has_running, docker_run, h]
    rfl
  · simp only [compose_has_running, docker_run, h]
    show (match (if rc ≠ 0 then
          (pure (false, pyStrip (pyOr e (pyOr o (pyStr "compose ps failed")))) :
            Except PyExn (Bool × PyStr))
        else pure (decide (pyStrip o ≠ []), pyStrip o)) with
      | .ok r => r
      | .error e2 => (false, excStr e2)) =
      (false, pyStrip (pyOr e (pyOr o (pyStr "compose ps failed"))))
    rw [if_pos hrc]
    rfl
  · simp only [compose_up, docker_run, h]
  · simp only [compose_up, docker_run, h]
  · simp only [compose_up, docker_run, h]
  · simp only [compose_down, docker_run, h]
  · simp only [compose_down, docker_run, h]
  · simp only [compose_down, docker_run, h]
  · simp only [compose_restart, docker_run, h]
  · simp only [compose_restart, docker_run, h]
  · simp only [compose_restart, docker_run, h]
  · simp only [compose_logs, docker_run, h]
  · simp only [compose_logs, docker_run, h]
  · simp only [compose_logs, docker_run, h]
  · simp only [compose_ps, docker_run, h]
  · simp only [compose_ps, docker_run, h]
  · simp only [compose_ps, docker_run, h]

theorem docker_ops_error_encoding_witness :
    docker_available envAlwaysTimeout = (false, excStr .timeoutExpired) :=
  docker_ops_error_encoding.2.1 envAlwaysTimeout rfl

/-- Claim C9: reading the runtime store before it was ever written (no file) and
reading a corrupt file both yield a null running-lab claim; both reads are
total functions of the modelled file state, so neither raises. -/
theorem runtime_store_reads_null_safely :
    get_running_lab .missing = none ∧ get_running_lab .corrupt = none ∧
    get_runtime .missing = [(rtKey, none)] ∧
    get_runtime .corrupt = [(rtKey, none)] :=
  ⟨rfl, rfl, rfl, rfl⟩

/-- Claim C1: when engine and compose are reachable and the claimed lab has no
running containers, one reconciliation pass nulls the claim in memory and
in the persisted store, and a second pass leaves that end state fixed. The
program's guard `if not self._running_lab_id` treats a claimed id as present
only when truthy, so "a lab is claimed" is hypothesised as the claim not
being the empty string (the falsy empty-string claim is no claim at all and
is left untouched, like `None`). -/
theorem verify_runtime_clears_stale (env : DockerEnv) (s : AppState)
    (hsync : s.runningLabId = get_running_lab s.store)
    (htruthy : s.runningLabId ≠ some [])
    (hdok : (docker_available env).1 = true)
    (hcok : (compose_v2_available env).1 = true)
    (hnot : ∀ l ∈ s.labs, s.runningLabId = some l.id →
      (compose_has_running env l.path l.compose_file).1 = false) :
    (verifyRuntimeRunningLab env s).1.runningLabId = none ∧
    get_running_lab (verifyRuntimeRunningLab env s).1.store = none ∧
    verifyRuntimeRunningLab env (verifyRuntimeRunningLab env s).1 =
      ((verifyRuntimeRunningLab env s).1, []) := by
  cases hrid : s.runningLabId with
  | none =>
      have h1 : verifyRuntimeRunningLab env s = (s, []) := by
        simp [verifyRuntimeRunningLab, hrid]
      rw [h1]
      exact ⟨hrid, hsync.symm.trans hrid, h1⟩
  | some rid =>
      have hne : rid ≠ [] := fun h => htruthy (by rw [hrid, h])
      cases hfind : s.labs.find? (fun x => x.id == rid) with
      | none =>
          have h1 : verifyRuntimeRunningLab env s =
              ({s with runningLabId := none, store := set_running_lab s.store none},
               [.runningChanged none]) := by
            simp [verifyRuntimeRunningLab, hrid, hne, hfind, hdok, hcok]
          rw [h1]
          exact ⟨rfl, get_running_lab_set _ _, by simp [verifyRuntimeRunningLab]⟩
      | some lab =>
          have hmem := List.mem_of_find?_eq_some hfind
          have hid : lab.id = rid := by
            simpa [beq_iff_eq] using List.find?_some hfind
          have hfalse := hnot lab hmem (by rw [hrid, hid])
          have h1 : verifyRuntimeRunningLab env s =
              ({s with runningLabId := none, store := set_running_lab s.store none},
               [.runningChanged none]) := by
            simp [verifyRuntimeRunningLab, hrid, hne, hfind, hdok, hcok, hfalse]
          rw [h1]
          exact ⟨rfl, get_running_lab_set _ _, by simp [verifyRuntimeRunningLab]⟩

theorem verify_runtime_clears_stale_witness :
    (docker_available envUpNoContainers).1 = true ∧
    ((verifyRuntimeRunningLab envUpNoContainers stateClaimW).1.runningLabId = none ∧
     get_running_lab (verifyRuntimeRunningLab envUpNoContainers stateClaimW).1.store
       = none ∧
     verifyRuntimeRunningLab envUpNoContainers
        (verifyRuntimeRunningLab envUpNoContainers stateClaimW).1 =
       ((verifyRuntimeRunningLab envUpNoContainers stateClaimW).1, [])) :=
  ⟨by decide,
   verify_runtime_clears_stale envUpNoContainers stateClaimW (by decide) (by decide)
     (by decide) (by decide) (by decide)⟩

/-- Claim C8: if the engine or the compose plugin is unreachable, reconciliation
returns the state untouched (store and memory identical, no signals). -/
theorem verify_runtime_frame_when_unavailable (env : DockerEnv) (s : AppState)
    (h : ¬((docker_available env).1 = true ∧ (compose_v2_available env).1 = true)) :
    verifyRuntimeRunningLab env s = (s, []) := by
  cases hrid : s.runningLabId with
  | none => simp [verifyRuntimeRunningLab, hrid]
  | some rid =>
      by_cases hempty : rid = []
      · simp [verifyRuntimeRunningLab, hrid, hempty]
      · simp only [verifyRuntimeRunningLab, hrid]
        rw [if_neg hempty, if_neg h]

theorem verify_runtime_frame_witness :
    verifyRuntimeRunningLab envDockerDead stateClaimW = (stateClaimW, []) :=
  verify_runtime_frame_when_unavailable envDockerDead stateClaimW (by decide)

/-- Claim C10, counterexample: the claim promises that with a reachable
engine a claimed id matching no discovered lab is cleared, so a non-null
claim always names a discovered lab — but the falsy guard returns early on
the claimed empty-string id: with both probes true the pass leaves the
state untouched, the surviving claim is the non-null empty string, and no
discovered lab has that id. -/
theorem verify_runtime_empty_claim_cex :
    (docker_available envUpNoContainers).1 = true ∧
    (compose_v2_available envUpNoContainers).1 = true ∧
    verifyRuntimeRunningLab envUpNoContainers stateEmptyClaim =
      (stateEmptyClaim, []) ∧
    (verifyRuntimeRunningLab envUpNoContainers stateEmptyClaim).1.runningLabId =
      some [] ∧
    get_running_lab
      (verifyRuntimeRunningLab envUpNoContainers stateEmptyClaim).1.store =
      some [] ∧
    stateEmptyClaim.labs.find? (fun x => x.id == ([] : PyStr)) = none := by
  decide

/-- Claim C10, amended: with engine and compose reachable, a claimed lab id
that is non-empty and matches no discovered lab is cleared (memory, store,
observers notified); after the pass a surviving non-null claim is either
the empty string (falsy, treated as no claim and left untouched by the
guard) or names a discovered lab. -/
theorem verify_runtime_clears_unknown_lab (env : DockerEnv) (s : AppState)
    (hdok : (docker_available env).1 = true)
    (hcok : (compose_v2_available env).1 = true) :
    (∀ rid, rid ≠ [] → s.runningLabId = some rid →
      s.labs.find? (fun x => x.id == rid) = none →
      verifyRuntimeRunningLab env s =
        ({s with runningLabId := none, store := set_running_lab s.store none},
         [.runningChanged none]) ∧
      get_running_lab (verifyRuntimeRunningLab env s).1.store = none) ∧
    (∀ rid, (verifyRuntimeRunningLab env s).1.runningLabId = some rid →
      rid = [] ∨ ∃ l ∈ s.labs, l.id = rid) := by
  constructor
  · intro rid hne hrid hfind
    have h1 : verifyRuntimeRunningLab env s =
        ({s with runningLabId := none, store := set_running_lab s.store none},
         [.runningChanged none]) := by
      simp [verifyRuntimeRunningLab, hrid, hne, hfind, hdok, hcok]
    exact ⟨h1, by rw [h1]; exact get_running_lab_set _ _⟩
  · intro rid hres
    cases hrid : s.runningLabId with
    | none =>
        rw [show verifyRuntimeRunningLab env s = (s, []) by
          simp [verifyRuntimeRunningLab, hrid]] at hres
        exact absurd (hrid.symm.trans hres) (by simp)
    | some rid0 =>
        by_cases hzero : rid0 = []
        · rw [show verifyRuntimeRunningLab env s = (s, []) by
            simp [verifyRuntimeRunningLab, hrid, hzero]] at hres
          exact Or.inl ((Option.some.inj (hrid.symm.trans hres)).symm.trans hzero)
        · cases hfind : s.labs.find? (fun x => x.id == rid0) with
          | none =>
              rw [show verifyRuntimeRunningLab env s =
                  ({s with runningLabId := none, store := set_running_lab s.store none},
                   [.runningChanged none]) by
                simp [verifyRuntimeRunningLab, hrid, hzero, hfind, hdok, hcok]] at hres
              simp at hres
          | some lab =>
              cases hrun : (compose_has_running env lab.path lab.compose_file).1 with
              | true =>
                  rw [show verifyRuntimeRunningLab env s = (s, []) by
                    simp [verifyRuntimeRunningLab, hrid, hzero, hfind, hdok, hcok,
                      hrun]] at hres
                  have hid : lab.id = rid0 := by
                    simpa [beq_iff_eq] using List.find?_some hfind
                  have : rid0 = rid := Option.some.inj (hrid.symm.trans hres)
                  exact Or.inr ⟨lab, List.mem_of_find?_eq_some hfind, hid.trans this⟩
              | false =>
                  rw [show verifyRuntimeRunningLab env s =
                      ({s with runningLabId := none, store := set_running_lab s.store none},
                       [.runningChanged none]) by
                    simp [verifyRuntimeRunningLab, hrid, hzero, hfind, hdok, hcok,
                      hrun]] at hres
                  simp at hres

theorem verify_runtime_clears_unknown_lab_witness :
    verifyRuntimeRunningLab envUpNoContainers stateGhost =
      ({stateGhost with runningLabId := none, store := set_running_lab stateGhost.store none},
       [.runningChanged none]) :=
  ((verify_runtime_clears_unknown_lab envUpNoContainers stateGhost (by decide)
      (by decide)).1 (pyStr "ghost") (by decide) (by decide) (by decide)).1

/-- Claim C5, counterexample: the claim promises the misconfigured failure for any
submitted string on a hash-less lab, but an empty submission takes the
early-return path and yields the distinct "Empty flag." failure instead. -/
theorem submit_flag_empty_on_unconfigured_cex :
    (submit_flag stateNoHash 0 (pyStr "nohash") []).2.2 =
      (false, pyStr "Empty flag.") ∧
    pyStr "Empty flag." ≠ pyStr "This lab has no flag_sha256 configured." := by
  decide

/-- Claim C5, amended: for a lab resolved by the submitted id whose configured
hash trims to empty, any submission that trims non-empty yields the distinct
misconfigured failure, and no submission whatsoever changes `solved_at`. -/
theorem submit_flag_misconfigured_distinct (s : AppState) (now : Nat)
    (lab_id flag : PyStr) (lab : Lab)
    (hfind : s.labs.find? (fun x => x.id == lab_id) = some lab)
    (hhash : pyLower (pyStrip lab.flag_sha256) = []) :
    (pyStrip flag ≠ [] →
      (submit_flag s now lab_id flag).2.2 =
        (false, pyStr "This lab has no flag_sha256 configured.")) ∧
    (progressGet (submit_flag s now lab_id flag).1.progress lab_id).solved_at =
      (progressGet s.progress lab_id).solved_at ∧
    pyStr "This lab has no flag_sha256 configured." ≠ ([] : PyStr) := by
  by_cases hempty : pyStrip flag = []
  · refine ⟨fun hne => absurd hempty hne, ?_, by decide⟩
    simp [submit_flag, hempty, stMarkAttempt, invalidateAllProgressViews,
      mark_attempt_get]
  · refine ⟨fun _ => ?_, ?_, by decide⟩
    · simp [submit_flag, hempty, stMarkStarted, stMarkAttempt,
        invalidateAllProgressViews, hfind, hhash]
    · simp [submit_flag, hempty, stMarkStarted, stMarkAttempt,
        invalidateAllProgressViews, hfind, hhash, mark_attempt_get,
        mark_started_get]

theorem submit_flag_misconfigured_distinct_witness :
    (submit_flag stateNoHash 0 (pyStr "nohash") (pyStr "guess")).2.2 =
      (false, pyStr "This lab has no flag_sha256 configured.") :=
  (submit_flag_misconfigured_distinct stateNoHash 0 (pyStr "nohash")
    (pyStr "guess") labNoHash (by decide) (by decide)).1 (by decide)

/-- Claim C6: a non-empty submission always records exactly one new attempt and
marks the lab started, and these effects persist whether or not the flag
matches; on the concrete scenario lab (hash of `WEBVERSE{abc}`), the padded
correct flag solves with attempts 1 and `solved_at` set, and a later wrong
flag fails with attempts 2 and `solved_at` unchanged. -/
theorem submit_flag_no_rollback :
    (∀ (s : AppState) (now : Nat) (lab_id flag : PyStr), pyStrip flag ≠ [] →
      (progressGet (submit_flag s now lab_id flag).1.progress lab_id).attempts =
        (progressGet s.progress lab_id).attempts + 1 ∧
      (progressGet (submit_flag s now lab_id flag).1.progress lab_id).started_at =
        some ((progressGet s.progress lab_id).started_at.getD now)) ∧
    (sqliStep1.2.2.1 = true ∧
     (progressGet sqliStep1.1.progress (pyStr "sqli-101")).attempts = 1 ∧
     (progressGet sqliStep1.1.progress (pyStr "sqli-101")).solved_at = some 7 ∧
     sqliStep2.2.2.1 = false ∧
     (progressGet sqliStep2.1.progress (pyStr "sqli-101")).attempts = 2 ∧
     (progressGet sqliStep2.1.progress (pyStr "sqli-101")).solved_at = some 7) := by
  constructor
  · intro s now lab_id flag hne
    have hprog : (submit_flag s now lab_id flag).1.progress =
        db_mark_attempt (db_mark_started s.progress lab_id now) lab_id ∨
        (submit_flag s now lab_id flag).1.progress =
          db_mark_solved
            (db_mark_attempt (db_mark_started s.progress lab_id now) lab_id)
            lab_id now := by
      simp only [submit_flag, stMarkStarted, stMarkAttempt, stMarkSolved,
        invalidateAllProgressViews, if_neg hne]
      rcases hf : (s.labs.find? fun x => x.id == lab_id) with _ | lab
      · simp [hf]
      · simp only [hf]
        by_cases hsha : pyLower (pyStrip lab.flag_sha256) = []
        · simp [hsha]
        · by_cases hok : sha256_hex (pyStrip flag) = pyLower (pyStrip lab.flag_sha256)
          · simp [hsha, hok]
          · simp [hsha, hok]
    rcases hprog with h | h <;>
      rw [h] <;>
      simp [mark_solved_get, mark_attempt_get, mark_started_get]
  · decide

theorem submit_flag_no_rollback_witness :
    (progressGet (submit_flag stateSqli 7 (pyStr "sqli-101")
        (pyStr "guess")).1.progress (pyStr "sqli-101")).attempts =
      (progressGet stateSqli.progress (pyStr "sqli-101")).attempts + 1 ∧
    (progressGet (submit_flag stateSqli 7 (pyStr "sqli-101")
        (pyStr "guess")).1.progress (pyStr "sqli-101")).started_at =
      some ((progressGet stateSqli.progress (pyStr "sqli-101")).started_at.getD 7) :=
  submit_flag_no_rollback.1 stateSqli 7 (pyStr "sqli-101") (pyStr "guess")
    (by decide)

end WebVerse
